import Mathlib

/-!
Shallow embedding of the d1-rest HTTP-to-SQL gateway.

The request-to-SQL compiler lives in the repository file embedded here as
the handlers `handleGet`, `handlePost`, `handleUpdate`, `handleDelete` and
the dispatcher `handleRest`; the auth middleware lives in src/index.ts.
JavaScript strings are modelled as Lean `String` (ASCII is all that the
claims exercise), JSON values and bound SQL parameters as the inductive
`Value`, and the query string as an ordered list of key/value pairs, the
shape produced by URLSearchParams.entries().
-/

namespace D1Rest

/-- JSON-like runtime values: the possible shapes of a parsed request body
and of entries of the bound-parameter array (`any[]` in the source).
`vnan` models the JavaScript NaN produced by parseInt on non-numeric text;
`vundef` models the JavaScript undefined produced by a missing property
lookup. JSON numbers are modelled as integers: every numeric literal in
the specification and the claims is integral, and no arithmetic besides
parseInt is performed on them. -/
inductive Value where
  | vnull
  | vbool (b : Bool)
  | vint (n : Int)
  | vstr (s : String)
  | varr (elems : List Value)
  | vobj (fields : List (String × Value))
  | vnan
  | vundef

/-- Models JavaScript Array.prototype.join with separator `sep`, used by
the source as conditions.join(" AND ") and columns.join(", "). -/
def joinSep (sep : String) : List String → String
  | [] => ""
  | [x] => x
  | x :: y :: t => x ++ sep ++ joinSep sep (y :: t)

/-- Models URLSearchParams.get: the value of the first pair whose key
matches, or none when the key does not occur. -/
def getParam (q : List (String × String)) (k : String) : Option String :=
  match q.find? (fun kv => kv.1 == k) with
  | some kv => some kv.2
  | none => none

/-- JavaScript truthiness of a value of type string-or-undefined: absent
and the empty string are falsy, every other string is truthy. -/
def strTruthy : Option String → Bool
  | none => false
  | some s => !(s == "")

/-- The character class kept by the sanitizer regex [^a-zA-Z0-9_]. -/
def isWordChar (c : Char) : Bool :=
  (('a' ≤ c) && (c ≤ 'z')) || (('A' ≤ c) && (c ≤ 'Z')) ||
    (('0' ≤ c) && (c ≤ '9')) || (c == '_')

/-- sanitizeIdentifier from the source: removes every character that is
not an ASCII letter, digit, or underscore. -/
def sanitizeIdentifier (s : String) : String :=
  ⟨s.data.filter isWordChar⟩

/-- sanitizeKeyword from the source: backtick-quotes a sanitized
identifier, used for table names. -/
def sanitizeKeyword (s : String) : String :=
  "`" ++ sanitizeIdentifier s ++ "`"

/-- Value of a character as a digit in the given radix, or none: the
digit alphabet accepted by the JavaScript parseInt builtin. -/
def digitVal (radix : Nat) (c : Char) : Option Nat :=
  if ('0' ≤ c) && (c ≤ '9') then
    (if c.toNat - 48 < radix then some (c.toNat - 48) else none)
  else if ('a' ≤ c) && (c ≤ 'z') then
    (if c.toNat - 97 + 10 < radix then some (c.toNat - 97 + 10) else none)
  else if ('A' ≤ c) && (c ≤ 'Z') then
    (if c.toNat - 65 + 10 < radix then some (c.toNat - 65 + 10) else none)
  else none

/-- Longest prefix of digit values in the given radix. -/
def takeDigits (radix : Nat) : List Char → List Nat
  | [] => []
  | c :: cs =>
    match digitVal radix c with
    | some d => d :: takeDigits radix cs
    | none => []

/-- Models the JavaScript parseInt builtin with the radix argument
unspecified: skip leading whitespace, read an optional sign, detect a 0x
or 0X hexadecimal marker, read the longest digit prefix, and return NaN
when no digit was read. -/
def jsParseInt (s : String) : Value :=
  let t := s.data.dropWhile (fun c => (c == ' ') || (c == '\t') || (c == '\n') || (c == '\r'))
  let signRest : Int × List Char :=
    match t with
    | '-' :: r => (-1, r)
    | '+' :: r => (1, r)
    | r => (1, r)
  let radixRest : Nat × List Char :=
    match signRest.2 with
    | '0' :: 'x' :: r => (16, r)
    | '0' :: 'X' :: r => (16, r)
    | r => (10, r)
  let ds := takeDigits radixRest.1 radixRest.2
  if ds.isEmpty then Value.vnan
  else Value.vint (signRest.1 * (ds.foldl (fun acc d => acc * radixRest.1 + d) 0 : Nat))

/-- Models JavaScript String.prototype.toUpperCase on the ASCII range,
which is all the source compares against (the literal DESC). -/
def jsToUpper (s : String) : String :=
  ⟨s.data.map Char.toUpper⟩

/-- Number of ? placeholders in a SQL text. -/
def countPlaceholders (s : String) : Nat :=
  s.data.countP (fun c => c == '?')

/-- Result shape of the four compile handlers in the source: an HTTP
status, the message field (the SQL text on success, the error text
otherwise), and the optional bound-parameter array. -/
structure HandlerOut where
  status : Nat
  message : String
  params : Option (List Value)

/-- The reserved query-string control keys skipped by the filter loop. -/
def reservedKeys : List String :=
  ["sort_by", "order", "limit", "offset"]

/-- The id filter of handleGet: when the record identifier is truthy the
condition id = ? is pushed together with the identifier as a parameter. -/
def getIdPair (id : Option String) : List String × List Value :=
  match id with
  | some s => if s = "" then ([], []) else (["id = ?"], [Value.vstr s])
  | none => ([], [])

/-- The equality filters of handleGet: every query-string entry whose key
is not reserved contributes the condition key = ? (key sanitized) and its
value, as a literal string, as the bound parameter. -/
def getFilterPairs (q : List (String × String)) : List (String × Value) :=
  (q.filter (fun kv => !(reservedKeys.contains kv.1))).map
    (fun kv => (sanitizeIdentifier kv.1 ++ " = ?", Value.vstr kv.2))

/-- The conditions array of handleGet, in push order: id filter first,
then the query-string filters. -/
def getConditions (id : Option String) (q : List (String × String)) : List String :=
  (getIdPair id).1 ++ (getFilterPairs q).map Prod.fst

/-- The params array of handleGet before pagination, in push order. -/
def getCondParams (id : Option String) (q : List (String × String)) : List Value :=
  (getIdPair id).2 ++ (getFilterPairs q).map Prod.snd

/-- The WHERE clause of handleGet: omitted when there are no conditions,
otherwise the conditions joined with AND. -/
def getWhereClause (id : Option String) (q : List (String × String)) : String :=
  let conds := getConditions id q
  if conds.isEmpty then "" else " WHERE " ++ joinSep " AND " conds

/-- The sort direction of handleGet: DESC exactly when the order value,
upper-cased, is the literal DESC, else ASC (also when order is absent). -/
def getDirection (q : List (String × String)) : String :=
  match getParam q "order" with
  | some o => if jsToUpper o = "DESC" then "DESC" else "ASC"
  | none => "ASC"

/-- The ORDER BY clause of handleGet: present when sort_by is truthy. -/
def getOrderClause (q : List (String × String)) : String :=
  match getParam q "sort_by" with
  | some sb =>
    if sb = "" then ""
    else " ORDER BY " ++ sanitizeIdentifier sb ++ " " ++ getDirection q
  | none => ""

/-- The pagination tail of handleGet: when limit is truthy, LIMIT ? with
the parsed limit, and additionally OFFSET ? with the parsed offset when
offset is also truthy; when limit is falsy, nothing, and the offset is
never even read. -/
def getPagination (q : List (String × String)) : String × List Value :=
  match getParam q "limit" with
  | some l =>
    if l = "" then ("", [])
    else
      match getParam q "offset" with
      | some o =>
        if o = "" then (" LIMIT ?", [jsParseInt l])
        else (" LIMIT ? OFFSET ?", [jsParseInt l, jsParseInt o])
      | none => (" LIMIT ?", [jsParseInt l])
  | none => ("", [])

/-- The SQL text of handleGet before the pagination tail. -/
def selectCore (tableName : String) (id : Option String) (q : List (String × String)) : String :=
  "SELECT * FROM " ++ sanitizeKeyword tableName ++ getWhereClause id q ++ getOrderClause q

/-- handleGet from the source: compiles the SELECT statement. The try
block of the source can not throw for the operations modelled here, so
the catch arm (status 500) is unreachable and the result is always the
200 arm carrying the SQL text and the parameter array. -/
def handleGet (tableName : String) (id : Option String) (q : List (String × String)) : HandlerOut :=
  ⟨200, selectCore tableName id q ++ (getPagination q).1,
    some (getCondParams id q ++ (getPagination q).2)⟩

/-- Object.keys on a modelled JSON value: the field names of an object in
insertion order, nothing otherwise. (The JavaScript reordering of
integer-like keys is not modelled; no claim involves such keys.) -/
def objKeys : Value → List String
  | Value.vobj fields => fields.map Prod.fst
  | _ => []

/-- Object.values on a modelled JSON value, in the same order. -/
def objValues : Value → List Value
  | Value.vobj fields => fields.map Prod.snd
  | _ => []

/-- Property lookup data[k]: the value of the first field named k, or
undefined when there is none or the value is not an object. -/
def objGet (v : Value) (k : String) : Value :=
  match v with
  | Value.vobj fields =>
    match fields.find? (fun kv => kv.1 == k) with
    | some kv => kv.2
    | none => Value.vundef
  | _ => Value.vundef

/-- The body-shape guard shared by handlePost and handleUpdate, mirroring
the source condition: not data, or typeof data is not object, or data is
an array. Exactly the single non-array objects pass. -/
def isInvalidData : Value → Bool
  | Value.vobj _ => false
  | _ => true

/-- handlePost from the source: rejects a non-object body with 400
Invalid data format, otherwise sanitizes every key into the column list,
builds the INSERT with one ? per column, and binds, for each sanitized
column name, the property of that name looked up in the body object. -/
def handlePost (tableName : String) (data : Value) : HandlerOut :=
  if isInvalidData data then ⟨400, "Invalid data format", none⟩
  else
    let columns := (objKeys data).map sanitizeIdentifier
    let placeholders := joinSep ", " (columns.map (fun _ => "?"))
    let query := "INSERT INTO " ++ sanitizeKeyword tableName ++ " (" ++
      joinSep ", " columns ++ ") VALUES (" ++ placeholders ++ ")"
    ⟨200, query, some (columns.map (fun col => objGet data col))⟩

/-- handleUpdate from the source: rejects a non-object body, otherwise
builds UPDATE t SET col = ?, ... WHERE id = ? and the parameter array
Object.values(data) followed by the identifier. -/
def handleUpdate (tableName : String) (id : String) (data : Value) : HandlerOut :=
  if isInvalidData data then ⟨400, "Invalid data format", none⟩
  else
    let setColumns := joinSep ", "
      ((objKeys data).map (fun k => sanitizeIdentifier k ++ " = ?"))
    ⟨200, "UPDATE " ++ sanitizeKeyword tableName ++ " SET " ++ setColumns ++ " WHERE id = ?",
      some (objValues data ++ [Value.vstr id])⟩

/-- handleDelete from the source: builds DELETE FROM t WHERE id = ?. The
identifier argument is accepted but never used, and no params field is
produced. -/
def handleDelete (tableName : String) (id : String) : HandlerOut :=
  ⟨200, "DELETE FROM " ++ sanitizeKeyword tableName ++ " WHERE id = ?", none⟩

/-- The fixed closed set of logical database names accepted by the switch
on db_name in handleRest (and by the raw-query route). -/
def knownDb (db_name : String) : Bool :=
  (db_name == "mcw_db") || (db_name == "utility_db") || (db_name == "catalog_db")

/-- Models the JavaScript ReferenceError raised on the PUT/PATCH path of
handleRest: the bind expression there reads the const binding named
params that is declared in the GET case of the same switch block, and
that binding is still uninitialized when the GET case did not run. -/
def tdzMessage : String :=
  "Cannot access params before initialization"

/-- Outcome of one handleRest call: the HTTP status, the error field of
the JSON response when the response is an error object, and the trace of
statements actually executed against a database, each as the pair of the
prepared SQL text and the list of parameters passed to bind. Driver
execution itself is external and assumed to succeed. -/
structure RestOutcome where
  status : Nat
  errorMessage : Option String
  executed : List (String × List Value)

/-- handleRest from the source, taken after path parsing: db_name,
tableName and id are the path segments pathParts[1..3] (id absent when
the path has only three segments; segments are nonempty because empty
parts are filtered out). The method switch, the per-method handler call,
the status check, the db_name switch and the execution step mirror the
source case by case; on the PUT/PATCH path the bind expression raises
the temporal-dead-zone ReferenceError described at tdzMessage, which the
surrounding try catches into a 500 response before anything executes. -/
def handleRest (method db_name tableName : String) (id : Option String)
    (q : List (String × String)) (body : Value) : RestOutcome :=
  if method = "GET" then
    let r := handleGet tableName id q
    if r.status ≠ 200 then ⟨r.status, some r.message, []⟩
    else if knownDb db_name then ⟨200, none, [(r.message, r.params.getD [])]⟩
    else ⟨400, some "Unknown database name", []⟩
  else if method = "POST" then
    let r := handlePost tableName body
    if r.status ≠ 200 then ⟨r.status, some r.message, []⟩
    else if knownDb db_name then ⟨201, none, [(r.message, r.params.getD [])]⟩
    else ⟨400, some "Unknown database name", []⟩
  else if method = "PUT" ∨ method = "PATCH" then
    if !(strTruthy id) then ⟨400, some "ID is required for updates", []⟩
    else
      let r := handleUpdate tableName (id.getD "") body
      if r.status ≠ 200 then ⟨r.status, some r.message, []⟩
      else if knownDb db_name then ⟨500, some tdzMessage, []⟩
      else ⟨400, some "Unknown database name", []⟩
  else if method = "DELETE" then
    if !(strTruthy id) then ⟨400, some "ID is required for deletion", []⟩
    else
      let r := handleDelete tableName (id.getD "")
      if r.status ≠ 200 then ⟨r.status, some r.message, []⟩
      else if knownDb db_name then ⟨200, none, [(r.message, [])]⟩
      else ⟨400, some "Unknown database name", []⟩
  else ⟨405, some "Method not allowed", []⟩

/-- Outcome of the auth middleware: a 401 Unauthorized response, or
passing control to the next handler. -/
inductive AuthOutcome where
  | unauthorized
  | proceed
deriving DecidableEq

/-- Leading-segment test on character lists: true when the first list is
an initial segment of the second. -/
def leadsWith : List Char → List Char → Bool
  | [], _ => true
  | _ :: _, [] => false
  | a :: as, b :: bs => (a == b) && leadsWith as bs

/-- Models JavaScript String.prototype.startsWith. -/
def strStartsWith (s p : String) : Bool :=
  leadsWith p.data s.data

/-- Models JavaScript String.prototype.substring(n): drop the first n
characters. -/
def strDrop (s : String) (n : Nat) : String :=
  ⟨s.data.drop n⟩

/-- The token derived from an Authorization header value: the value with
a leading Bearer prefix stripped when present, the value itself
otherwise. -/
def derivedToken (h : String) : String :=
  if strStartsWith h "Bearer " then strDrop h 7 else h

/-- authMiddleware from src/index.ts: rejects when the header is falsy
(absent or empty) or when the derived token differs from the shared
secret, and proceeds otherwise. -/
def authMiddleware (authHeader : Option String) (secret : String) : AuthOutcome :=
  if !(strTruthy authHeader) then AuthOutcome.unauthorized
  else if derivedToken (authHeader.getD "") ≠ secret then AuthOutcome.unauthorized
  else AuthOutcome.proceed


theorem countPlaceholders_append (a b : String) :
    countPlaceholders (a ++ b) = countPlaceholders a + countPlaceholders b := by
  cases a with
  | mk la =>
    cases b with
    | mk lb =>
      show (String.mk (la ++ lb)).data.countP _ = _
      simp [countPlaceholders, List.countP_append]

theorem countPlaceholders_sanitize (s : String) :
    countPlaceholders (sanitizeIdentifier s) = 0 := by
  unfold countPlaceholders sanitizeIdentifier
  rw [List.countP_eq_zero]
  intro c hc
  have h1 := (List.mem_filter.mp hc).2
  intro hq
  have : c = '?' := by simpa using hq
  subst this
  simp [isWordChar] at h1

theorem countPlaceholders_keyword (s : String) :
    countPlaceholders (sanitizeKeyword s) = 0 := by
  unfold sanitizeKeyword
  rw [countPlaceholders_append, countPlaceholders_append, countPlaceholders_sanitize]
  rfl

theorem cpJoinOnes (sep : String) (hsep : countPlaceholders sep = 0) :
    ∀ l : List String, (∀ x ∈ l, countPlaceholders x = 1) →
      countPlaceholders (joinSep sep l) = l.length
  | [], _ => rfl
  | [x], h => by
    rw [show joinSep sep [x] = x from rfl]
    simpa using h x (by simp)
  | x :: y :: t, h => by
    rw [show joinSep sep (x :: y :: t) = x ++ sep ++ joinSep sep (y :: t) from rfl]
    rw [countPlaceholders_append, countPlaceholders_append]
    rw [cpJoinOnes sep hsep (y :: t) (fun z hz => h z (by simp [hz]))]
    rw [h x (by simp), hsep]
    simp only [List.length_cons]
    omega

theorem cpJoinZeros (sep : String) (hsep : countPlaceholders sep = 0) :
    ∀ l : List String, (∀ x ∈ l, countPlaceholders x = 0) →
      countPlaceholders (joinSep sep l) = 0
  | [], _ => rfl
  | [x], h => by
    rw [show joinSep sep [x] = x from rfl]
    simpa using h x (by simp)
  | x :: y :: t, h => by
    rw [show joinSep sep (x :: y :: t) = x ++ sep ++ joinSep sep (y :: t) from rfl]
    rw [countPlaceholders_append, countPlaceholders_append]
    rw [cpJoinZeros sep hsep (y :: t) (fun z hz => h z (by simp [hz]))]
    rw [h x (by simp), hsep]

theorem sanitize_all_word (s : String) :
    (sanitizeIdentifier s).data.all isWordChar = true := by
  simp only [sanitizeIdentifier, List.all_eq_true]
  intro c hc
  exact List.of_mem_filter hc

theorem sanitize_idem (s : String) :
    sanitizeIdentifier (sanitizeIdentifier s) = sanitizeIdentifier s := by
  show String.mk ((s.data.filter isWordChar).filter isWordChar) = String.mk (s.data.filter isWordChar)
  rw [List.filter_eq_self.mpr (fun a ha => List.of_mem_filter ha)]

theorem conds_count_one (id : Option String) (q : List (String × String)) :
    ∀ c ∈ getConditions id q, countPlaceholders c = 1 := by
  intro c hc
  rcases List.mem_append.mp hc with h | h
  · cases id with
    | none => simp [getIdPair] at h
    | some s =>
      by_cases hs : s = ""
      · simp [getIdPair, hs] at h
      · simp [getIdPair, hs] at h
        subst h
        rfl
  · obtain ⟨kv, hkv, hrfl⟩ := List.mem_map.mp h
    obtain ⟨kv2, hkv2, hrfl2⟩ := List.mem_map.mp hkv
    subst hrfl
    rw [← hrfl2]
    rw [show (sanitizeIdentifier kv2.1 ++ " = ?", Value.vstr kv2.2).1 = sanitizeIdentifier kv2.1 ++ " = ?" from rfl]
    rw [countPlaceholders_append, countPlaceholders_sanitize]
    rfl

theorem condParams_length (id : Option String) (q : List (String × String)) :
    (getCondParams id q).length = (getConditions id q).length := by
  unfold getCondParams getConditions
  rw [List.length_append, List.length_append, List.length_map, List.length_map]
  cases id with
  | none => rfl
  | some s =>
    by_cases hs : s = "" <;> simp [getIdPair, hs]

theorem where_count (id : Option String) (q : List (String × String)) :
    countPlaceholders (getWhereClause id q) = (getConditions id q).length := by
  unfold getWhereClause
  by_cases h : (getConditions id q).isEmpty
  · rw [if_pos h]
    rw [List.isEmpty_iff.mp h]
    rfl
  · rw [if_neg h]
    rw [countPlaceholders_append]
    rw [cpJoinOnes " AND " rfl (getConditions id q) (conds_count_one id q)]
    rw [show countPlaceholders " WHERE " = 0 from rfl, Nat.zero_add]

theorem direction_count (q : List (String × String)) :
    countPlaceholders (getDirection q) = 0 := by
  unfold getDirection
  cases getParam q "order" with
  | none => rfl
  | some o => by_cases h : jsToUpper o = "DESC" <;> simp [h] <;> rfl

theorem order_count (q : List (String × String)) :
    countPlaceholders (getOrderClause q) = 0 := by
  unfold getOrderClause
  cases getParam q "sort_by" with
  | none => rfl
  | some sb =>
    by_cases h : sb = ""
    · simp only [h, if_true]
      rfl
    · simp only [h, if_false]
      rw [countPlaceholders_append, countPlaceholders_append, countPlaceholders_append]
      rw [countPlaceholders_sanitize, direction_count]
      decide

theorem pag_count (q : List (String × String)) :
    countPlaceholders (getPagination q).1 = (getPagination q).2.length := by
  unfold getPagination
  cases getParam q "limit" with
  | none => rfl
  | some l =>
    by_cases hl : l = ""
    · simp only [hl, if_true]
      rfl
    · simp only [hl, if_false]
      cases getParam q "offset" with
      | none => rfl
      | some o => by_cases ho : o = "" <;> simp only [ho, if_true, if_false] <;> rfl

theorem cols_count_zero (fields : List (String × Value)) :
    ∀ x ∈ (objKeys (Value.vobj fields)).map sanitizeIdentifier, countPlaceholders x = 0 := by
  intro x hx
  obtain ⟨k, _, hrfl⟩ := List.mem_map.mp hx
  rw [← hrfl, countPlaceholders_sanitize]

theorem qmarks_count_one (cols : List String) :
    ∀ x ∈ cols.map (fun _ => "?"), countPlaceholders x = 1 := by
  intro x hx
  obtain ⟨k, _, hrfl⟩ := List.mem_map.mp hx
  rw [← hrfl]
  rfl

/-- Claim C1, amended: the placeholder-count invariant holds for the
Compiled Statements produced by the GET, POST and PUT/PATCH compile
handlers
(for an invalid body the error result carries zero placeholders and an
absent parameter array, so the equation holds there too). The DELETE
path violates the original claim; see the counterexample. -/
theorem placeholder_invariant_compiled (t : String) (id : Option String)
    (q : List (String × String)) (body : Value) (idv : String) :
    countPlaceholders (handleGet t id q).message = ((handleGet t id q).params.getD []).length ∧
    countPlaceholders (handlePost t body).message = ((handlePost t body).params.getD []).length ∧
    countPlaceholders (handleUpdate t idv body).message = ((handleUpdate t idv body).params.getD []).length := by
  refine ⟨?_, ?_, ?_⟩
  · show countPlaceholders (selectCore t id q ++ (getPagination q).1) =
      (getCondParams id q ++ (getPagination q).2).length
    rw [countPlaceholders_append, List.length_append]
    unfold selectCore
    rw [countPlaceholders_append, countPlaceholders_append, countPlaceholders_append]
    rw [countPlaceholders_keyword, where_count, order_count, pag_count, condParams_length]
    rw [show countPlaceholders "SELECT * FROM " = 0 from rfl]
    omega
  · cases body with
    | vobj fields =>
      show countPlaceholders ("INSERT INTO " ++ sanitizeKeyword t ++ " (" ++
          joinSep ", " ((objKeys (Value.vobj fields)).map sanitizeIdentifier) ++ ") VALUES (" ++
          joinSep ", " (((objKeys (Value.vobj fields)).map sanitizeIdentifier).map (fun _ => "?")) ++ ")") =
        (((objKeys (Value.vobj fields)).map sanitizeIdentifier).map
          (fun col => objGet (Value.vobj fields) col)).length
      rw [countPlaceholders_append, countPlaceholders_append, countPlaceholders_append,
        countPlaceholders_append, countPlaceholders_append, countPlaceholders_append]
      rw [countPlaceholders_keyword]
      rw [cpJoinZeros ", " rfl _ (cols_count_zero fields)]
      rw [cpJoinOnes ", " rfl _ (qmarks_count_one ((objKeys (Value.vobj fields)).map sanitizeIdentifier))]
      simp only [List.length_map]
      rw [show countPlaceholders "INSERT INTO " = 0 from rfl,
        show countPlaceholders " (" = 0 from rfl,
        show countPlaceholders ") VALUES (" = 0 from rfl,
        show countPlaceholders ")" = 0 from rfl]
      omega
    | vnull => rfl
    | vbool b => rfl
    | vint n => rfl
    | vstr s => rfl
    | varr elems => rfl
    | vnan => rfl
    | vundef => rfl
  · cases body with
    | vobj fields =>
      show countPlaceholders ("UPDATE " ++ sanitizeKeyword t ++ " SET " ++
          joinSep ", " ((objKeys (Value.vobj fields)).map (fun k => sanitizeIdentifier k ++ " = ?")) ++
          " WHERE id = ?") =
        (objValues (Value.vobj fields) ++ [Value.vstr idv]).length
      rw [countPlaceholders_append, countPlaceholders_append, countPlaceholders_append,
        countPlaceholders_append]
      rw [countPlaceholders_keyword]
      have hone : ∀ x ∈ (objKeys (Value.vobj fields)).map (fun k => sanitizeIdentifier k ++ " = ?"),
          countPlaceholders x = 1 := by
        intro x hx
        obtain ⟨k, _, hrfl⟩ := List.mem_map.mp hx
        rw [← hrfl, countPlaceholders_append, countPlaceholders_sanitize]
        rfl
      rw [cpJoinOnes ", " rfl _ hone]
      rw [List.length_append, List.length_map]
      show 0 + 0 + 0 + (fields.map Prod.fst).length + 1 = (fields.map Prod.snd).length + 1
      simp only [List.length_map]
      omega
    | vnull => rfl
    | vbool b => rfl
    | vint n => rfl
    | vstr s => rfl
    | varr elems => rfl
    | vnan => rfl
    | vundef => rfl

/-- Claim C1, counterexample: at the DELETE execution boundary the claim
fails. For the request DELETE mcw_db/users/7 the executed statement is
the DELETE text, whose placeholder count is 1, together with an empty
bound-parameter list, whose length is 0. -/
theorem delete_placeholder_mismatch :
    (handleRest "DELETE" "mcw_db" "users" (some "7") [] Value.vnull).executed =
      [("DELETE FROM `users` WHERE id = ?", [])] ∧
    countPlaceholders "DELETE FROM `users` WHERE id = ?" = 1 ∧
    ([] : List Value).length = 0 :=
  ⟨rfl, rfl, rfl⟩

/-- Claim C2, code evaluated at the failing input: handleUpdate itself
compiles the UPDATE statement with parameters [31, "123"], exactly the
object values followed by the id, but the PUT/PATCH execution path of
handleRest never binds them: it reads the uninitialized read-path params
binding, so the request ends in a 500 ReferenceError with nothing
executed. -/
theorem update_bind_bug :
    handleUpdate "users" "123" (Value.vobj [("age", Value.vint 31)]) =
      ⟨200, "UPDATE `users` SET age = ? WHERE id = ?", some [Value.vint 31, Value.vstr "123"]⟩ ∧
    handleRest "PATCH" "mcw_db" "users" (some "123") [] (Value.vobj [("age", Value.vint 31)]) =
      ⟨500, some tdzMessage, []⟩ :=
  ⟨rfl, rfl⟩

/-- Claim C3: for every DELETE request with a present id and a known
database, the executed SQL text is exactly DELETE FROM (quoted table)
WHERE id = ? and the parameter list passed to the execution call is
empty, so the id is not bound. -/
theorem delete_compiles_unbound (t idv db : String) (q : List (String × String)) (body : Value)
    (hid : idv ≠ "") (hdb : knownDb db = true) :
    handleRest "DELETE" db t (some idv) q body =
      ⟨200, none, [("DELETE FROM " ++ sanitizeKeyword t ++ " WHERE id = ?", [])]⟩ := by
  simp [handleRest, strTruthy, hid, hdb, handleDelete]

/-- Witness for claim C3 at the concrete request DELETE
mcw_db/users/7. -/
theorem delete_compiles_unbound_witness :
    handleRest "DELETE" "mcw_db" "users" (some "7") [] Value.vnull =
      ⟨200, none, [("DELETE FROM " ++ sanitizeKeyword "users" ++ " WHERE id = ?", [])]⟩ :=
  delete_compiles_unbound "users" "7" "mcw_db" [] Value.vnull (by decide) rfl

/-- Claim C4: for every string s, sanitize(s) contains only characters
in [A-Za-z0-9_] (in particular neither a semicolon nor a space survives),
and sanitize is idempotent. -/
theorem sanitize_safe_idempotent (s : String) :
    (sanitizeIdentifier s).data.all isWordChar = true ∧
    sanitizeIdentifier (sanitizeIdentifier s) = sanitizeIdentifier s ∧
    (sanitizeIdentifier s).data.contains ';' = false ∧
    (sanitizeIdentifier s).data.contains ' ' = false := by
  refine ⟨sanitize_all_word s, sanitize_idem s, ?_, ?_⟩
  · cases hcase : (sanitizeIdentifier s).data.contains ';' with
    | false => rfl
    | true =>
      have hw := List.of_mem_filter (List.elem_iff.mp hcase)
      simp [isWordChar] at hw
  · cases hcase : (sanitizeIdentifier s).data.contains ' ' with
    | false => rfl
    | true =>
      have hw := List.of_mem_filter (List.elem_iff.mp hcase)
      simp [isWordChar] at hw

/-- Claim C6: for every POST request whose body is a JSON object, the
compiled statement is INSERT INTO (quoted table) (sanitized columns in
object key order) VALUES with one ? per column, and the bound values are
obtained by looking up each sanitized column name in the object, in the
order of the column list; the body with name John and age 30 yields
exactly the params [John, 30]. -/
theorem post_insert_shape (t : String) (fields : List (String × Value)) :
    handlePost t (Value.vobj fields) =
      ⟨200,
        "INSERT INTO " ++ sanitizeKeyword t ++ " (" ++
          joinSep ", " (fields.map (fun kv => sanitizeIdentifier kv.1)) ++ ") VALUES (" ++
          joinSep ", " (fields.map (fun _ => "?")) ++ ")",
        some ((fields.map (fun kv => sanitizeIdentifier kv.1)).map
          (fun col => objGet (Value.vobj fields) col))⟩ ∧
    handlePost "users" (Value.vobj [("name", Value.vstr "John"), ("age", Value.vint 30)]) =
      ⟨200, "INSERT INTO `users` (name, age) VALUES (?, ?)", some [Value.vstr "John", Value.vint 30]⟩ := by
  constructor
  · simp only [handlePost, isInvalidData, if_false, objKeys]
    rw [List.map_map, List.map_map]
    rfl
  · rfl

/-- Claim C7: for every POST or PUT/PATCH body that is not a single
non-array object (null, array, primitive), the handler returns the
client error Invalid data format with no parameter array, and the
dispatcher executes no SQL statement. -/
theorem invalid_body_rejected (t idv db : String) (id : Option String)
    (q : List (String × String)) (body : Value)
    (h : ∀ fields, body ≠ Value.vobj fields) :
    handlePost t body = ⟨400, "Invalid data format", none⟩ ∧
    handleUpdate t idv body = ⟨400, "Invalid data format", none⟩ ∧
    handleRest "POST" db t id q body = ⟨400, some "Invalid data format", []⟩ ∧
    (strTruthy id = true →
      handleRest "PATCH" db t id q body = ⟨400, some "Invalid data format", []⟩) := by
  have hinv : isInvalidData body = true := by
    cases body <;> first | rfl | exact absurd rfl (h _)
  refine ⟨?_, ?_, ?_, ?_⟩
  · simp [handlePost, hinv]
  · simp [handleUpdate, hinv]
  · simp [handleRest, handlePost, hinv]
  · intro hid
    simp [handleRest, handleUpdate, hinv, hid]

/-- Witness for claim C7 at the array body [1, 2, 3] and the null
body. -/
theorem invalid_body_rejected_witness :
    handlePost "users" (Value.varr [Value.vint 1, Value.vint 2, Value.vint 3]) =
      ⟨400, "Invalid data format", none⟩ ∧
    handleUpdate "users" "123" Value.vnull = ⟨400, "Invalid data format", none⟩ :=
  ⟨(invalid_body_rejected "users" "123" "mcw_db" (some "123") []
      (Value.varr [Value.vint 1, Value.vint 2, Value.vint 3]) (fun _ h => Value.noConfusion h)).1,
    (invalid_body_rejected "users" "123" "mcw_db" (some "123") [] Value.vnull
      (fun _ h => Value.noConfusion h)).2.1⟩

/-- Claim C8: for every request whose db path segment is outside the
fixed set mcw_db, utility_db, catalog_db, and which passes the checks
that precede database dispatch, the response is 400 with error Unknown
database name and no statement is executed against any database. -/
theorem unknown_db_rejected (method db t : String) (id : Option String)
    (q : List (String × String)) (body : Value)
    (hdb : knownDb db = false)
    (hm : method = "GET" ∨ (method = "POST" ∧ isInvalidData body = false) ∨
      ((method = "PUT" ∨ method = "PATCH") ∧ strTruthy id = true ∧ isInvalidData body = false) ∨
      (method = "DELETE" ∧ strTruthy id = true)) :
    handleRest method db t id q body = ⟨400, some "Unknown database name", []⟩ := by
  rcases hm with h | ⟨h, hb⟩ | ⟨h, hid, hb⟩ | ⟨h, hid⟩
  · subst h
    simp [handleRest, hdb, handleGet]
  · subst h
    simp [handleRest, hdb, handlePost, hb]
  · rcases h with h | h <;> subst h <;> simp [handleRest, hdb, handleUpdate, hb, hid]
  · subst h
    simp [handleRest, hdb, handleDelete, hid]

/-- Witness for claim C8 at a GET request for the unknown database
bad_db. -/
theorem unknown_db_rejected_witness :
    handleRest "GET" "bad_db" "users" none [] Value.vnull =
      ⟨400, some "Unknown database name", []⟩ :=
  unknown_db_rejected "GET" "bad_db" "users" none [] Value.vnull rfl (Or.inl rfl)

/-- Claim C5: for every GET request, when the query string carries a
truthy limit value the compiled SQL ends with LIMIT ? (and additionally
OFFSET ? when a truthy offset is also present) and the integer-parsed
values are bound in that order at the end of the parameter list; when
limit is absent, nothing is appended and the offset value is never added
to the parameter list. -/
theorem get_pagination_shape (t : String) (id : Option String)
    (q : List (String × String)) (lv ov : String) :
    (getParam q "limit" = some lv → lv ≠ "" → getParam q "offset" = some ov → ov ≠ "" →
      handleGet t id q = ⟨200, selectCore t id q ++ " LIMIT ? OFFSET ?",
        some (getCondParams id q ++ [jsParseInt lv, jsParseInt ov])⟩) ∧
    (getParam q "limit" = some lv → lv ≠ "" → getParam q "offset" = none →
      handleGet t id q = ⟨200, selectCore t id q ++ " LIMIT ?",
        some (getCondParams id q ++ [jsParseInt lv])⟩) ∧
    (getParam q "limit" = none →
      handleGet t id q = ⟨200, selectCore t id q, some (getCondParams id q)⟩) := by
  refine ⟨?_, ?_, ?_⟩
  · intro h1 h2 h3 h4
    simp [handleGet, getPagination, h1, h2, h3, h4]
  · intro h1 h2 h3
    simp [handleGet, getPagination, h1, h2, h3]
  · intro h1
    simp [handleGet, getPagination, h1]

/-- Witness for claim C5 at the query string limit=10 and offset=20. -/
theorem get_pagination_shape_witness :
    handleGet "users" none [("limit", "10"), ("offset", "20")] =
      ⟨200, selectCore "users" none [("limit", "10"), ("offset", "20")] ++ " LIMIT ? OFFSET ?",
        some (getCondParams none [("limit", "10"), ("offset", "20")] ++
          [jsParseInt "10", jsParseInt "20"])⟩ :=
  (get_pagination_shape "users" none [("limit", "10"), ("offset", "20")] "10" "20").1 rfl
    (by decide) rfl (by decide)

/-- Claim C10: for a nonempty shared secret, the auth middleware
returns 401 Unauthorized exactly when the Authorization header is absent
or the derived token (the header value with a leading Bearer prefix
stripped when present) differs from the secret; in particular a header
carrying the bare secret with no Bearer prefix is accepted. -/
theorem auth_unauthorized_iff (h : Option String) (secret : String) (hs : secret ≠ "") :
    (authMiddleware h secret = AuthOutcome.unauthorized ↔
      (h = none ∨ derivedToken (h.getD "") ≠ secret)) ∧
    (∀ s, h = some s → s = secret → strStartsWith s "Bearer " = false →
      authMiddleware h secret = AuthOutcome.proceed) := by
  constructor
  · cases h with
    | none => simp [authMiddleware, strTruthy]
    | some s =>
      by_cases he : s = ""
      · subst he
        simp [authMiddleware, strTruthy, derivedToken, strStartsWith, strDrop]
        exact fun heq => hs heq.symm
      · simp only [authMiddleware, strTruthy, he]
        by_cases ht : derivedToken s = secret <;> simp [ht, he]
  · intro s hsome heq hpre
    subst hsome
    subst heq
    simp [authMiddleware, strTruthy, derivedToken, hpre, hs]

/-- Witness for claim C10: the bare secret without a Bearer prefix is
accepted. -/
theorem auth_unauthorized_iff_witness :
    authMiddleware (some "s3cret") "s3cret" = AuthOutcome.proceed :=
  (auth_unauthorized_iff (some "s3cret") "s3cret" (by decide)).2 "s3cret" rfl rfl (by decide)

theorem char_toNat_inj {a b : Char} (h : a.toNat = b.toNat) : a = b :=
  Char.eq_of_val_eq (UInt32.ext h)

theorem toNat_ofNat_small (n : Nat) (h : n < 55296) : (Char.ofNat n).toNat = n := by
  unfold Char.ofNat
  rw [dif_pos (Or.inl h : Nat.isValidChar n)]
  rfl

theorem charUpLow (c U L : Char) (h1 : 65 ≤ U.toNat) (h2 : U.toNat ≤ 90)
    (hL : L.toNat = U.toNat + 32) :
    (Char.toUpper c = U ↔ (c = U ∨ c = L)) ∧ (Char.toLower c = L ↔ (c = U ∨ c = L)) := by
  have hLl : 97 ≤ L.toNat := by omega
  have hLu : L.toNat ≤ 122 := by omega
  constructor
  · unfold Char.toUpper
    by_cases hc : c.toNat ≥ 97 ∧ c.toNat ≤ 122
    · rw [if_pos hc]
      constructor
      · intro he
        have hn : c.toNat - 32 = U.toNat := by
          rw [← toNat_ofNat_small (c.toNat - 32) (by omega)]
          rw [he]
        right
        apply char_toNat_inj
        omega
      · rintro (he | he)
        · subst he
          omega
        · subst he
          apply char_toNat_inj
          rw [toNat_ofNat_small (c.toNat - 32) (by omega)]
          omega
    · rw [if_neg hc]
      constructor
      · intro he
        exact Or.inl he
      · rintro (he | he)
        · exact he
        · subst he
          exact absurd ⟨hLl, hLu⟩ hc
  · unfold Char.toLower
    by_cases hc : c.toNat ≥ 65 ∧ c.toNat ≤ 90
    · rw [if_pos hc]
      constructor
      · intro he
        have hn : c.toNat + 32 = L.toNat := by
          rw [← toNat_ofNat_small (c.toNat + 32) (by omega)]
          rw [he]
        left
        apply char_toNat_inj
        omega
      · rintro (he | he)
        · subst he
          apply char_toNat_inj
          rw [toNat_ofNat_small (c.toNat + 32) (by omega)]
          omega
        · subst he
          omega
    · rw [if_neg hc]
      constructor
      · intro he
        exact Or.inr he
      · rintro (he | he)
        · subst he
          exact absurd ⟨h1, h2⟩ hc
        · exact he

theorem upLow (c U L : Char) (h1 : 65 ≤ U.toNat) (h2 : U.toNat ≤ 90)
    (hL : L.toNat = U.toNat + 32) :
    Char.toUpper c = U ↔ Char.toLower c = L :=
  ((charUpLow c U L h1 h2 hL).1).trans ((charUpLow c U L h1 h2 hL).2).symm

theorem mapUpper_desc (l : List Char) :
    l.map Char.toUpper = ['D', 'E', 'S', 'C'] ↔ l.map Char.toLower = ['d', 'e', 's', 'c'] := by
  match l with
  | [] => simp
  | [a] => simp
  | [a, b] => simp
  | [a, b, c] => simp
  | [a, b, c, d] =>
    simp only [List.map_cons, List.map_nil, List.cons.injEq, and_true]
    rw [upLow a 'D' 'd' (by decide) (by decide) (by decide),
      upLow b 'E' 'e' (by decide) (by decide) (by decide),
      upLow c 'S' 's' (by decide) (by decide) (by decide),
      upLow d 'C' 'c' (by decide) (by decide) (by decide)]
  | a :: b :: c :: d :: e :: t => simp

theorem jsToUpper_eq_desc_iff (s : String) :
    jsToUpper s = "DESC" ↔ s.data.map Char.toLower = "desc".data := by
  rw [String.ext_iff]
  rw [show (jsToUpper s).data = s.data.map Char.toUpper from rfl]
  rw [show ("DESC" : String).data = ['D', 'E', 'S', 'C'] from rfl]
  rw [show ("desc".data) = ['d', 'e', 's', 'c'] from rfl]
  exact mapUpper_desc s.data

/-- Claim C9: the GET request for table users with query string
age=25, sort_by=name, order=desc compiles to SELECT * FROM (backtick
users) WHERE age = ? ORDER BY name DESC with the single bound parameter
25 as a string; reserved keys never become WHERE filters; and the sort
direction is DESC exactly when the order value case-insensitively equals
desc, else ASC. -/
theorem get_filter_sort_shape :
    handleGet "users" none [("age", "25"), ("sort_by", "name"), ("order", "desc")] =
      ⟨200, "SELECT * FROM `users` WHERE age = ? ORDER BY name DESC", some [Value.vstr "25"]⟩ ∧
    (∀ (k v : String) (q : List (String × String)), k ∈ reservedKeys →
      getFilterPairs ((k, v) :: q) = getFilterPairs q) ∧
    (∀ (q : List (String × String)) (ov : String), getParam q "order" = some ov →
      (getDirection q = "DESC" ↔ ov.data.map Char.toLower = "desc".data)) ∧
    (∀ q : List (String × String), getParam q "order" = none → getDirection q = "ASC") := by
  refine ⟨rfl, ?_, ?_, ?_⟩
  · intro k v q hk
    have hcontains : reservedKeys.contains k = true := List.elem_eq_true_of_mem hk
    have hp : (!(reservedKeys.contains (k, v).1)) = false := by
      show (!(reservedKeys.contains k)) = false
      rw [hcontains]
      rfl
    unfold getFilterPairs
    rw [List.filter_cons, hp]
    simp
  · intro q ov h1
    unfold getDirection
    rw [h1]
    show (if jsToUpper ov = "DESC" then "DESC" else "ASC") = "DESC" ↔
      ov.data.map Char.toLower = "desc".data
    by_cases hd : jsToUpper ov = "DESC"
    · rw [if_pos hd]
      exact iff_of_true rfl ((jsToUpper_eq_desc_iff ov).mp hd)
    · rw [if_neg hd]
      constructor
      · intro habs
        exact absurd habs (by decide)
      · intro hlow
        exact absurd ((jsToUpper_eq_desc_iff ov).mpr hlow) hd
  · intro q h1
    unfold getDirection
    rw [h1]

/-- Witness for claim C9: a reserved key prepended to a query string
leaves the filter list unchanged, the mixed-case value DeSc selects the
DESC direction, and an absent order value selects ASC. -/
theorem get_filter_sort_shape_witness :
    getFilterPairs (("limit", "10") :: [("age", "25")]) = getFilterPairs [("age", "25")] ∧
    (getDirection [("order", "DeSc")] = "DESC" ↔ "DeSc".data.map Char.toLower = "desc".data) ∧
    getDirection [("age", "25")] = "ASC" :=
  ⟨get_filter_sort_shape.2.1 "limit" "10" [("age", "25")] (by decide),
    get_filter_sort_shape.2.2.1 [("order", "DeSc")] "DeSc" rfl,
    get_filter_sort_shape.2.2.2 [("age", "25")] rfl⟩

end D1Rest
